import Mathlib

/-!
Verification of the OmniBazaar/Documents infographic generators.

The repository holds two Python scripts, `create_infographic.py` (the
"yield" infographic) and `create_features_infographic.py` (the "features"
infographic).  Both render a fixed layout onto an in-memory canvas and save
it as a PNG.  This file shallowly embeds the pieces of those scripts that
the specification talks about:

* the hex-colour parser `hex_to_rgb` (identical in both files),
* the rounded-rectangle rasterizer `draw_rounded_rect` (two variants:
  the features script clamps the radius, the yield script does not),
* the vertical-gradient compositor `draw_gradient_rect` (features script),
* the layout cursor sequence, the font/asset fallback structure and the
  final crop-and-save step of each script's `create_infographic`.

Python integers are embedded as `ℤ`/`ℕ`; the float interpolation factor of
the gradient is embedded exactly as a rational, with Python's `int()`
truncation modelled by `pyInt`.  Python's floor division `//` is
`Int.fdiv`.  Strings are embedded as `List Char`.  PIL drawing primitives
are idealized as pixel-set predicates: `draw.rectangle` paints the closed
integer box, and `draw.ellipse` on the square bounding boxes used here
paints the closed disc inscribed in the box.  A raised Python exception is
modelled as `Except.error` / `Option.none`.
-/

/-- A PIL bounding box `(x1, y1, x2, y2)` as passed to the drawing calls. -/
structure Box where
  x1 : ℤ
  y1 : ℤ
  x2 : ℤ
  y2 : ℤ
deriving DecidableEq, Repr

/-- An RGB colour triple; channels are Python ints. -/
structure Rgb where
  r : ℤ
  g : ℤ
  b : ℤ
deriving DecidableEq, Repr

/-- The six primitive drawing calls issued by one `draw_rounded_rect` call:
two axis-aligned rectangles and four ellipse bounding boxes, in source
order. -/
structure RoundedRectCalls where
  hstrip : Box
  vstrip : Box
  cornerTL : Box
  cornerTR : Box
  cornerBL : Box
  cornerBR : Box
deriving DecidableEq, Repr

/-- Pixels painted by PIL `draw.rectangle` on a box: the closed integer
rectangle (empty when the box is inverted, matching PIL). -/
def rectPixels (bx : Box) (p : ℤ × ℤ) : Prop :=
  bx.x1 ≤ p.1 ∧ p.1 ≤ bx.x2 ∧ bx.y1 ≤ p.2 ∧ p.2 ≤ bx.y2

/-- Pixels painted by PIL `draw.ellipse` on a bounding box, idealized as the
closed ellipse inscribed in the box; written with doubled coordinates so it
stays in `ℤ`.  Every call in this repository uses a square box of side
`2*r`, where this is the closed disc of radius `r` about the box centre. -/
def discPixels (bx : Box) (p : ℤ × ℤ) : Prop :=
  (2 * p.1 - (bx.x1 + bx.x2)) ^ 2 + (2 * p.2 - (bx.y1 + bx.y2)) ^ 2 ≤ (bx.x2 - bx.x1) ^ 2

/-- The closed disc of radius `r` centred at `(cx, cy)` — the "filled circle
of diameter 2R placed in a corner" of the specification's wording. -/
def discAt (cx cy r : ℤ) (p : ℤ × ℤ) : Prop :=
  (p.1 - cx) ^ 2 + (p.2 - cy) ^ 2 ≤ r ^ 2

/-- The union of the pixels painted by the six primitive calls of one
`draw_rounded_rect` invocation. -/
def RoundedRectCalls.pixels (c : RoundedRectCalls) (p : ℤ × ℤ) : Prop :=
  rectPixels c.hstrip p ∨ rectPixels c.vstrip p ∨
  discPixels c.cornerTL p ∨ discPixels c.cornerTR p ∨
  discPixels c.cornerBL p ∨ discPixels c.cornerBR p

instance (bx : Box) (p : ℤ × ℤ) : Decidable (rectPixels bx p) := by
  unfold rectPixels; infer_instance

instance (bx : Box) (p : ℤ × ℤ) : Decidable (discPixels bx p) := by
  unfold discPixels; infer_instance

instance (cx cy r : ℤ) (p : ℤ × ℤ) : Decidable (discAt cx cy r p) := by
  unfold discAt; infer_instance

instance (c : RoundedRectCalls) (p : ℤ × ℤ) : Decidable (c.pixels p) := by
  unfold RoundedRectCalls.pixels; infer_instance

/-- The plus-shape-and-four-disks decomposition for an effective radius `r`,
as described in the specification (section 4.2): a horizontal strip inset by
`r` on both sides, a vertical strip inset by `r` on top and bottom, and four
corner circles of diameter `2*r`. -/
def roundedRectDecomposition (coords : Box) (r : ℤ) : RoundedRectCalls :=
  ⟨⟨coords.x1 + r, coords.y1, coords.x2 - r, coords.y2⟩,
   ⟨coords.x1, coords.y1 + r, coords.x2, coords.y2 - r⟩,
   ⟨coords.x1, coords.y1, coords.x1 + 2 * r, coords.y1 + 2 * r⟩,
   ⟨coords.x2 - 2 * r, coords.y1, coords.x2, coords.y1 + 2 * r⟩,
   ⟨coords.x1, coords.y2 - 2 * r, coords.x1 + 2 * r, coords.y2⟩,
   ⟨coords.x2 - 2 * r, coords.y2 - 2 * r, coords.x2, coords.y2⟩⟩

/-- The pixel set claimed by the specification for a rounded rectangle of
requested radius `r`: the two inset rectangles, plus four filled circles of
diameter `2*r` centred radius-deep in the four corners of the box. -/
def claimedRoundedPixels (coords : Box) (r : ℤ) (p : ℤ × ℤ) : Prop :=
  rectPixels ⟨coords.x1 + r, coords.y1, coords.x2 - r, coords.y2⟩ p ∨
  rectPixels ⟨coords.x1, coords.y1 + r, coords.x2, coords.y2 - r⟩ p ∨
  discAt (coords.x1 + r) (coords.y1 + r) r p ∨
  discAt (coords.x2 - r) (coords.y1 + r) r p ∨
  discAt (coords.x1 + r) (coords.y2 - r) r p ∨
  discAt (coords.x2 - r) (coords.y2 - r) r p

instance (coords : Box) (r : ℤ) (p : ℤ × ℤ) : Decidable (claimedRoundedPixels coords r p) := by
  unfold claimedRoundedPixels; infer_instance

namespace CreateInfographic

/-- Python `draw_rounded_rect(draw, coords, radius, fill)` from
`create_infographic.py` lines 30-38.  The requested radius is used as-is in
all six primitive calls; there is no clamping in this file. -/
def draw_rounded_rect (coords : Box) (radius : ℤ) : RoundedRectCalls :=
  ⟨⟨coords.x1 + radius, coords.y1, coords.x2 - radius, coords.y2⟩,
   ⟨coords.x1, coords.y1 + radius, coords.x2, coords.y2 - radius⟩,
   ⟨coords.x1, coords.y1, coords.x1 + 2 * radius, coords.y1 + 2 * radius⟩,
   ⟨coords.x2 - 2 * radius, coords.y1, coords.x2, coords.y1 + 2 * radius⟩,
   ⟨coords.x1, coords.y2 - 2 * radius, coords.x1 + 2 * radius, coords.y2⟩,
   ⟨coords.x2 - 2 * radius, coords.y2 - 2 * radius, coords.x2, coords.y2⟩⟩

end CreateInfographic

namespace CreateFeaturesInfographic

/-- Python `draw_rounded_rect(draw, coords, radius, fill)` from
`create_features_infographic.py` lines 33-41.  The effective radius is
`r = min(radius, (x2 - x1) // 2, (y2 - y1) // 2)` — Python's floor division
`//` is `Int.fdiv` — and all six primitive calls use `r`. -/
def draw_rounded_rect (coords : Box) (radius : ℤ) : RoundedRectCalls :=
  let r := min radius (min (Int.fdiv (coords.x2 - coords.x1) 2) (Int.fdiv (coords.y2 - coords.y1) 2))
  ⟨⟨coords.x1 + r, coords.y1, coords.x2 - r, coords.y2⟩,
   ⟨coords.x1, coords.y1 + r, coords.x2, coords.y2 - r⟩,
   ⟨coords.x1, coords.y1, coords.x1 + 2 * r, coords.y1 + 2 * r⟩,
   ⟨coords.x2 - 2 * r, coords.y1, coords.x2, coords.y1 + 2 * r⟩,
   ⟨coords.x1, coords.y2 - 2 * r, coords.x1 + 2 * r, coords.y2⟩,
   ⟨coords.x2 - 2 * r, coords.y2 - 2 * r, coords.x2, coords.y2⟩⟩

end CreateFeaturesInfographic

/-- Python `int()` applied to the (here exactly represented) float value of
the gradient interpolation: truncation toward zero. -/
def pyInt (q : ℚ) : ℤ :=
  if q < 0 then ⌈q⌉ else ⌊q⌋

namespace CreateFeaturesInfographic

/-- One channel of one gradient row, from `create_features_infographic.py`
lines 52-56: `t = row / max(h - 1, 1)` and the channel value is
`int(ct + (cb - ct) * t)`.  The float arithmetic of the source is embedded
exactly over `ℚ`. -/
def gradChannel (ct cb : ℤ) (h row : ℕ) : ℤ :=
  pyInt ((ct : ℚ) + ((cb : ℚ) - (ct : ℚ)) * ((row : ℚ) / ((max (h - 1) 1 : ℕ) : ℚ)))

/-- The single solid colour filling row `row` of the gradient buffer of
height `h` (lines 52-57 of `create_features_infographic.py`); each channel
is interpolated independently. -/
def gradRow (ct cb : Rgb) (h row : ℕ) : Rgb :=
  ⟨gradChannel ct.r cb.r h row, gradChannel ct.g cb.g h row, gradChannel ct.b cb.b h row⟩

/-- The alpha channel of the gradient overlay after the optional
`putalpha(mask)` step (lines 58-63): with a positive radius the mask is the
rounded rectangle drawn by this file's `draw_rounded_rect` over the full
overlay box with value 255 on black; otherwise the overlay stays fully
opaque. -/
def overlayAlpha (w h radius : ℤ) (q : ℤ × ℤ) : ℤ :=
  if 0 < radius then
    (if (draw_rounded_rect ⟨0, 0, w, h⟩ radius).pixels q then 255 else 0)
  else 255

/-- Python `draw_gradient_rect(img, coords, color_top, color_bot, radius)`
from `create_features_infographic.py` lines 44-64, as the transformation it
applies to the destination canvas (a pixel-to-colour map).  In the source
the two colours arrive as hex strings and are converted with `hex_to_rgb`;
here they are taken as already-converted `Rgb` values.  The final
`img.paste(overlay, (x1, y1), overlay)` replaces exactly the destination
pixels covered by the overlay whose (binary) alpha is 255. -/
def draw_gradient_rect (img : ℤ × ℤ → Rgb) (coords : Box) (ct cb : Rgb) (radius : ℤ) :
    ℤ × ℤ → Rgb :=
  fun p =>
    if 0 ≤ p.1 - coords.x1 ∧ p.1 - coords.x1 < coords.x2 - coords.x1 ∧
       0 ≤ p.2 - coords.y1 ∧ p.2 - coords.y1 < coords.y2 - coords.y1 ∧
       overlayAlpha (coords.x2 - coords.x1) (coords.y2 - coords.y1) radius
         (p.1 - coords.x1, p.2 - coords.y1) = 255 then
      gradRow ct cb (coords.y2 - coords.y1).toNat (p.2 - coords.y1).toNat
    else img p

end CreateFeaturesInfographic

/-- Strip every leading hash character, Python `hex_color.lstrip('#')`. -/
def lstripHashAux : List Char → List Char
  | [] => []
  | c :: rest => if c = '#' then lstripHashAux rest else c :: rest

/-- Value of one hexadecimal digit character, upper or lower case. -/
def hexDigitVal (c : Char) : Option ℕ :=
  if c = '0' then some 0 else if c = '1' then some 1 else if c = '2' then some 2
  else if c = '3' then some 3 else if c = '4' then some 4 else if c = '5' then some 5
  else if c = '6' then some 6 else if c = '7' then some 7 else if c = '8' then some 8
  else if c = '9' then some 9 else if c = 'a' then some 10 else if c = 'b' then some 11
  else if c = 'c' then some 12 else if c = 'd' then some 13 else if c = 'e' then some 14
  else if c = 'f' then some 15 else if c = 'A' then some 10 else if c = 'B' then some 11
  else if c = 'C' then some 12 else if c = 'D' then some 13 else if c = 'E' then some 14
  else if c = 'F' then some 15 else none

/-- Accumulator loop of base-16 string parsing. -/
def pyIntHexAux : List Char → ℕ → Option ℕ
  | [], acc => some acc
  | c :: rest, acc =>
    match hexDigitVal c with
    | some v => pyIntHexAux rest (16 * acc + v)
    | none => none

/-- Python `int(s, 16)` restricted to the strings the scripts feed it:
parses a non-empty all-hex-digit string, `none` models the `ValueError`
raised on the empty string or on a non-digit character.  (Python would also
accept surrounding whitespace, a sign, or underscores; no call site here
produces those.) -/
def pyIntHex : List Char → Option ℕ
  | [] => none
  | cs => pyIntHexAux cs 0

/-- Python `hex_to_rgb(hex_color)` from `create_infographic.py` lines 25-28
and `create_features_infographic.py` lines 28-30 (the two definitions are
identical): strip leading hashes, then parse the character slices
`[0:2]`, `[2:4]`, `[4:6]` as base-16 integers.  `none` models the
`ValueError` that propagates when a slice is empty or contains a non-hex
character. -/
def hex_to_rgb (s : List Char) : Option (ℕ × ℕ × ℕ) :=
  match pyIntHex (((lstripHashAux s).drop 0).take 2),
        pyIntHex (((lstripHashAux s).drop 2).take 2),
        pyIntHex (((lstripHashAux s).drop 4).take 2) with
  | some rv, some gv, some bv => some (rv, gv, bv)
  | _, _, _ => none

/-- Lower-case hexadecimal digit character for a value in `[0, 15]`. -/
def toHexDigit (n : ℕ) : Char :=
  if n = 0 then '0' else if n = 1 then '1' else if n = 2 then '2' else if n = 3 then '3'
  else if n = 4 then '4' else if n = 5 then '5' else if n = 6 then '6' else if n = 7 then '7'
  else if n = 8 then '8' else if n = 9 then '9' else if n = 10 then 'a' else if n = 11 then 'b'
  else if n = 12 then 'c' else if n = 13 then 'd' else if n = 14 then 'e' else 'f'

/-- Two-digit lower-case hexadecimal rendering of a channel value,
Python `"%02x" % n` for `n` in `[0, 255]`. -/
def toHexPair (n : ℕ) : List Char :=
  [toHexDigit (n / 16), toHexDigit (n % 16)]

/-- Reformat an RGB triple as a six-digit hexadecimal string. -/
def rgbToHex (rv gv bv : ℕ) : List Char :=
  toHexPair rv ++ toHexPair gv ++ toHexPair bv

/-- Whether a character is an upper-case hexadecimal letter (the case the
`"%02x"`-style reformatting never produces). -/
def isUpperHexLetter (c : Char) : Bool :=
  c == 'A' || c == 'B' || c == 'C' || c == 'D' || c == 'E' || c == 'F'

/-- Which font objects a run ends up using for its text. -/
inductive FontChoice
  | truetype
  | defaultFont
deriving DecidableEq, Repr

/-- Which header a run ends up drawing. -/
inductive HeaderKind
  | imageLogo
  | textOnly
deriving DecidableEq, Repr

/-- Observable outcome of one `create_infographic()` run: which fonts were
used, which header was drawn, the final value of the layout cursor, and the
dimensions of the canvas handed to `img.save`. -/
structure RunResult where
  fonts : FontChoice
  header : HeaderKind
  finalCursor : ℤ
  savedWidth : ℤ
  savedHeight : ℤ
deriving DecidableEq, Repr

/-- Outcome of a fallible asset load (`ImageFont.truetype` or
`Image.open`), driven by an availability oracle: `ok = false` means the
call raises. -/
def loadAsset (ok : Bool) : Except Unit Unit :=
  if ok then Except.ok () else Except.error ()

namespace CreateInfographic

/-- Canvas width constant of `create_infographic.py`. -/
def WIDTH : ℤ := 1200

/-- Allocated canvas height constant of `create_infographic.py`. -/
def HEIGHT : ℤ := 1600

/-- The `y_pos` advancements of `create_infographic.py` after the header
block, in source order (lines 75-255): title, subtitle, stats bar, strategy
cards, timeline heading, timeline, scenarios heading, table header, three
table rows, spacer, treasury card, components heading, components, call to
action, links. -/
def bodyIncrements : List ℤ :=
  [60, 50, 100, 280 + 30, 50, 140, 40, 45, 35, 35, 35, 20, 140, 40, 70, 80, 30]

/-- All `y_pos` advancements of one run: the header block adds 140 when the
logo image loads (line 69) and 120 when the text fallback is drawn
(line 73), followed by the fixed body sequence. -/
def increments (logoOk : Bool) : List ℤ :=
  (if logoOk then 140 else 120) :: bodyIncrements

/-- The successive values taken by the layout cursor `y_pos`, starting from
its initial value 30 (line 60). -/
def cursorTrace (logoOk : Bool) : List ℤ :=
  List.scanl (· + ·) 30 (increments logoOk)

/-- The run of `create_infographic()` from `create_infographic.py`
lines 40-264, driven by the font and logo availability oracles.  The two
`try/except` blocks appear as the two `match`es on the load results; any
exception not caught there would surface as `Except.error`.  The canvas is
saved at its allocated size — this file has no crop step. -/
def create_infographic (fontsOk logoOk : Bool) : Except Unit RunResult := do
  let fonts := match loadAsset fontsOk with
    | Except.ok _ => FontChoice.truetype
    | Except.error _ => FontChoice.defaultFont
  let header := match loadAsset logoOk with
    | Except.ok _ => HeaderKind.imageLogo
    | Except.error _ => HeaderKind.textOnly
  let yf := (30 : ℤ) + (increments logoOk).sum
  pure ⟨fonts, header, yf, WIDTH, HEIGHT⟩

end CreateInfographic

namespace CreateFeaturesInfographic

/-- Canvas width constant of `create_features_infographic.py`. -/
def WIDTH : ℤ := 1200

/-- Allocated canvas height constant of `create_features_infographic.py`
(the comment in the source says "will be cropped to content"). -/
def HEIGHT : ℤ := 3200

/-- All `y` advancements of one run of `create_features_infographic.py`, in
source order (lines 113-570).  Composite amounts are kept as the source
writes them, e.g. `96 + 14` (line 137) or `192 + 25` (card height plus gap,
line 180).  The header advancement 120 (line 113) is outside the
`try/except`, so it is the same on both branches. -/
def increments : List ℤ :=
  [120, 48, 42, 96 + 14, 44, 192 + 25, 34, 48, 215 + 25, 34, 44, 260 + 25, 34, 42,
   150 + 8, 35, 34, 50, 10, 48, 200 + 22, 32, 36, 25, 25, 25, 25, 25, 4, 30, 32,
   105 + 25, 34, 44, 220 + 25, 34, 40, 195, 75, 28, 30]

/-- The successive values taken by the layout cursor `y`, starting from its
initial value 20 (line 96). -/
def cursorTrace : List ℤ :=
  List.scanl (· + ·) 20 increments

/-- The run of `create_infographic()` from `create_features_infographic.py`
lines 72-579, driven by the font and globe availability oracles.  The two
`try/except` blocks appear as the two `match`es.  At export (lines 572-577)
the content height is `final_h = y + 10` and the canvas is cropped to
`(0, 0, WIDTH, final_h)` exactly when `final_h < HEIGHT`. -/
def create_infographic (fontsOk globeOk : Bool) : Except Unit RunResult := do
  let fonts := match loadAsset fontsOk with
    | Except.ok _ => FontChoice.truetype
    | Except.error _ => FontChoice.defaultFont
  let header := match loadAsset globeOk with
    | Except.ok _ => HeaderKind.imageLogo
    | Except.error _ => HeaderKind.textOnly
  let yf := (20 : ℤ) + increments.sum
  let finalH := yf + 10
  let saved := if finalH < HEIGHT then finalH else HEIGHT
  pure ⟨fonts, header, yf, WIDTH, saved⟩

end CreateFeaturesInfographic

/-! ### Helper lemmas -/

/-- The painted pixels of the plus-and-disks decomposition at effective
radius `r` are exactly the inset rectangles together with the four corner
discs of radius `r`. -/
theorem decomposition_pixels (coords : Box) (r : ℤ) (p : ℤ × ℤ) :
    (roundedRectDecomposition coords r).pixels p ↔ claimedRoundedPixels coords r p := by
  obtain ⟨a, b, c, d⟩ := coords
  obtain ⟨px, py⟩ := p
  simp only [roundedRectDecomposition, RoundedRectCalls.pixels, claimedRoundedPixels,
    rectPixels, discPixels, discAt]
  constructor
  · rintro (h | h | h | h | h | h)
    · exact Or.inl h
    · exact Or.inr (Or.inl h)
    · exact Or.inr (Or.inr (Or.inl (by nlinarith [h])))
    · exact Or.inr (Or.inr (Or.inr (Or.inl (by nlinarith [h]))))
    · exact Or.inr (Or.inr (Or.inr (Or.inr (Or.inl (by nlinarith [h])))))
    · exact Or.inr (Or.inr (Or.inr (Or.inr (Or.inr (by nlinarith [h])))))
  · rintro (h | h | h | h | h | h)
    · exact Or.inl h
    · exact Or.inr (Or.inl h)
    · exact Or.inr (Or.inr (Or.inl (by nlinarith [h])))
    · exact Or.inr (Or.inr (Or.inr (Or.inl (by nlinarith [h]))))
    · exact Or.inr (Or.inr (Or.inr (Or.inr (Or.inl (by nlinarith [h])))))
    · exact Or.inr (Or.inr (Or.inr (Or.inr (Or.inr (by nlinarith [h])))))

/-! ### Claim C2 -/

/-- C2 (amended): the features-infographic rasterizer issues its six
primitive calls at the clamped radius
`min(radius, (x2 - x1) // 2, (y2 - y1) // 2)` (floor division), while the
yield-infographic rasterizer issues them at the requested radius, with no
clamping. -/
theorem claim2_radius_clamp :
    (∀ (coords : Box) (radius : ℤ),
      CreateFeaturesInfographic.draw_rounded_rect coords radius =
        roundedRectDecomposition coords
          (min radius (min (Int.fdiv (coords.x2 - coords.x1) 2)
            (Int.fdiv (coords.y2 - coords.y1) 2)))) ∧
    (∀ (coords : Box) (radius : ℤ),
      CreateInfographic.draw_rounded_rect coords radius =
        roundedRectDecomposition coords radius) :=
  ⟨fun _ _ => rfl, fun _ _ => rfl⟩

/-- C2 counterexample: the claim says every call to the rounded-rectangle
rasterizer uses the clamped radius, but `create_infographic.py`'s
`draw_rounded_rect` called on the box `(0, 0, 4, 4)` with requested radius
10 issues its primitive calls at radius 10, not at the clamped radius
`min(10, 2, 2) = 2`. -/
theorem claim2_counterexample :
    CreateInfographic.draw_rounded_rect ⟨0, 0, 4, 4⟩ 10 ≠
      roundedRectDecomposition ⟨0, 0, 4, 4⟩
        (min 10 (min (Int.fdiv (4 - 0) 2) (Int.fdiv (4 - 0) 2))) := by
  decide

/-! ### Claim C4 -/

/-- C4 (amended): the pixels painted by the yield-infographic
`draw_rounded_rect` are exactly the union claimed — the two rectangles
inset by the requested radius and four filled circles of diameter twice the
requested radius in the corners; the features-infographic variant paints
that union for the clamped radius
`min(radius, (x2 - x1) // 2, (y2 - y1) // 2)` instead of the requested
one. -/
theorem claim4_rounded_decomposition :
    (∀ (coords : Box) (radius : ℤ) (p : ℤ × ℤ),
      (CreateInfographic.draw_rounded_rect coords radius).pixels p ↔
        claimedRoundedPixels coords radius p) ∧
    (∀ (coords : Box) (radius : ℤ) (p : ℤ × ℤ),
      (CreateFeaturesInfographic.draw_rounded_rect coords radius).pixels p ↔
        claimedRoundedPixels coords
          (min radius (min (Int.fdiv (coords.x2 - coords.x1) 2)
            (Int.fdiv (coords.y2 - coords.y1) 2))) p) :=
  ⟨fun coords radius p => decomposition_pixels coords radius p,
   fun coords radius p =>
    decomposition_pixels coords
      (min radius (min (Int.fdiv (coords.x2 - coords.x1) 2)
        (Int.fdiv (coords.y2 - coords.y1) 2))) p⟩

/-- C4 counterexample: for the features-infographic `draw_rounded_rect` on
the box `(0, 0, 4, 4)` with radius 10, the pixel `(0, 0)` is not painted,
yet it lies in the claimed union with the requested radius 10 (it is inside
the claimed bottom-right corner circle centred at `(-6, -6)`), so the
painted set is not the claimed one. -/
theorem claim4_counterexample :
    ¬ ((CreateFeaturesInfographic.draw_rounded_rect ⟨0, 0, 4, 4⟩ 10).pixels (0, 0) ↔
      claimedRoundedPixels ⟨0, 0, 4, 4⟩ 10 (0, 0)) := by
  decide

/-- Truncation toward zero of an integer is that integer. -/
theorem pyInt_intCast (n : ℤ) : pyInt (n : ℚ) = n := by
  unfold pyInt
  split_ifs <;> simp

/-- Truncation toward zero is monotone. -/
theorem pyInt_mono {a b : ℚ} (hab : a ≤ b) : pyInt a ≤ pyInt b := by
  unfold pyInt
  by_cases ha : a < 0 <;> by_cases hb : b < 0 <;> simp only [ha, hb, if_true, if_false, if_pos, if_neg, not_false_iff]
  · exact Int.ceil_le_ceil hab
  · exact le_trans (Int.ceil_le.mpr (by exact_mod_cast ha.le))
      (Int.floor_nonneg.mpr (not_lt.mp hb))
  · exact absurd (lt_of_le_of_lt hab hb) ha
  · exact Int.floor_le_floor hab

/-- Row 0 of the gradient is exactly the top channel value. -/
theorem gradChannel_zero (ct cb : ℤ) (h : ℕ) :
    CreateFeaturesInfographic.gradChannel ct cb h 0 = ct := by
  unfold CreateFeaturesInfographic.gradChannel
  rw [Nat.cast_zero, zero_div, mul_zero, add_zero, pyInt_intCast]

/-- For a gradient of height at least 2, row `h - 1` is exactly the bottom
channel value. -/
theorem gradChannel_last (ct cb : ℤ) (h : ℕ) (h2 : 2 ≤ h) :
    CreateFeaturesInfographic.gradChannel ct cb h (h - 1) = cb := by
  unfold CreateFeaturesInfographic.gradChannel
  have h1 : max (h - 1) 1 = h - 1 := max_eq_left (by omega)
  have hne : ((h - 1 : ℕ) : ℚ) ≠ 0 := Nat.cast_ne_zero.mpr (by omega)
  rw [h1, div_self hne, mul_one, show (ct : ℚ) + ((cb : ℚ) - (ct : ℚ)) = (cb : ℚ) by ring,
    pyInt_intCast]

/-! ### Claim C1 -/

/-- C1 (amended): each gradient row is the single colour
`int(top + (bot - top) * (row / max(h - 1, 1)))` per channel (`gradRow`);
row 0 is exactly the top colour, and for heights of at least 2 the last row
`h - 1` is exactly the bottom colour.  For height exactly 1 the single row
equals the top colour (not the bottom one, as the original claim would
require). -/
theorem claim1_gradient_rows (ct cb : Rgb) (h : ℕ) (hh : 1 ≤ h) :
    CreateFeaturesInfographic.gradRow ct cb h 0 = ct ∧
    (2 ≤ h → CreateFeaturesInfographic.gradRow ct cb h (h - 1) = cb) ∧
    (h = 1 → CreateFeaturesInfographic.gradRow ct cb h (h - 1) = ct) := by
  refine ⟨?_, fun h2 => ?_, fun h1 => ?_⟩
  · unfold CreateFeaturesInfographic.gradRow
    rw [gradChannel_zero, gradChannel_zero, gradChannel_zero]
  · unfold CreateFeaturesInfographic.gradRow
    rw [gradChannel_last ct.r cb.r h h2, gradChannel_last ct.g cb.g h h2,
      gradChannel_last ct.b cb.b h h2]
  · subst h1
    unfold CreateFeaturesInfographic.gradRow
    rw [show (1 : ℕ) - 1 = 0 from rfl, gradChannel_zero, gradChannel_zero, gradChannel_zero]

/-- C1 witness: at height 2 with top colour black and bottom colour white,
row 0 is black and row 1 is white. -/
theorem claim1_witness :
    CreateFeaturesInfographic.gradRow ⟨0, 0, 0⟩ ⟨255, 255, 255⟩ 2 0 = ⟨0, 0, 0⟩ ∧
    CreateFeaturesInfographic.gradRow ⟨0, 0, 0⟩ ⟨255, 255, 255⟩ 2 (2 - 1) = ⟨255, 255, 255⟩ :=
  ⟨(claim1_gradient_rows ⟨0, 0, 0⟩ ⟨255, 255, 255⟩ 2 (by decide)).1,
   (claim1_gradient_rows ⟨0, 0, 0⟩ ⟨255, 255, 255⟩ 2 (by decide)).2.1 (by decide)⟩

/-- C1 counterexample: for a box of height `h = 1` (which the claim admits)
with top colour black and bottom colour white, the last row — row
`h - 1 = 0` — is black, not the bottom colour, because the interpolation
factor is `0 / max(0, 1) = 0` there. -/
theorem claim1_counterexample :
    CreateFeaturesInfographic.gradRow ⟨0, 0, 0⟩ ⟨255, 255, 255⟩ 1 (1 - 1) ≠
      ⟨255, 255, 255⟩ := by
  have hz : CreateFeaturesInfographic.gradRow ⟨0, 0, 0⟩ ⟨255, 255, 255⟩ 1 (1 - 1) =
      ⟨0, 0, 0⟩ := by
    simp [CreateFeaturesInfographic.gradRow, gradChannel_zero]
  rw [hz]
  decide

/-! ### Claim C6 -/

/-- C6 (confirmed): for any two channel values, if the top value is at most
the bottom value the per-row gradient channel is non-decreasing in the row
index, and if the top value is at least the bottom value it is
non-increasing — integer truncation preserves the monotonicity of the
linear interpolation. -/
theorem claim6_gradient_monotone (ct cb : ℤ) (h r1 r2 : ℕ) (hr : r1 ≤ r2) :
    (ct ≤ cb →
      CreateFeaturesInfographic.gradChannel ct cb h r1 ≤
        CreateFeaturesInfographic.gradChannel ct cb h r2) ∧
    (cb ≤ ct →
      CreateFeaturesInfographic.gradChannel ct cb h r2 ≤
        CreateFeaturesInfographic.gradChannel ct cb h r1) := by
  have hD : (0 : ℚ) < ((max (h - 1) 1 : ℕ) : ℚ) := by
    have : (0 : ℕ) < max (h - 1) 1 := lt_of_lt_of_le Nat.zero_lt_one (le_max_right _ _)
    exact_mod_cast this
  have ht : ((r1 : ℚ) / ((max (h - 1) 1 : ℕ) : ℚ)) ≤ ((r2 : ℚ) / ((max (h - 1) 1 : ℕ) : ℚ)) :=
    (div_le_div_iff_of_pos_right hD).mpr (by exact_mod_cast hr)
  constructor
  · intro hcc
    apply pyInt_mono
    have hnn : (0 : ℚ) ≤ (cb : ℚ) - (ct : ℚ) := by
      rw [sub_nonneg]
      exact_mod_cast hcc
    exact add_le_add_left (mul_le_mul_of_nonneg_left ht hnn) _
  · intro hcc
    apply pyInt_mono
    have hnp : (cb : ℚ) - (ct : ℚ) ≤ 0 := by
      rw [sub_nonpos]
      exact_mod_cast hcc
    exact add_le_add_left (mul_le_mul_of_nonpos_left ht hnp) _

/-- C6 witness: with top channel 0 and bottom channel 255 at height 5, the
row-1 value is at most the row-3 value. -/
theorem claim6_witness :
    CreateFeaturesInfographic.gradChannel 0 255 5 1 ≤
      CreateFeaturesInfographic.gradChannel 0 255 5 3 :=
  (claim6_gradient_monotone 0 255 5 1 3 (by decide)).1 (by decide)

/-- Master evaluation lemma for hexadecimal digits: the value is at most
15, and rendering the value of a lower-case digit gives the digit back. -/
theorem hexDigitVal_spec {c : Char} {v : ℕ} (h : hexDigitVal c = some v) :
    v ≤ 15 ∧ (isUpperHexLetter c = false → toHexDigit v = c) := by
  by_cases e1 : c = '0'
  · subst e1
    rw [show hexDigitVal '0' = some 0 from by decide] at h
    injection h with hv
    subst hv
    exact ⟨by decide, by decide⟩
  by_cases e2 : c = '1'
  · subst e2
    rw [show hexDigitVal '1' = some 1 from by decide] at h
    injection h with hv
    subst hv
    exact ⟨by decide, by decide⟩
  by_cases e3 : c = '2'
  · subst e3
    rw [show hexDigitVal '2' = some 2 from by decide] at h
    injection h with hv
    subst hv
    exact ⟨by decide, by decide⟩
  by_cases e4 : c = '3'
  · subst e4
    rw [show hexDigitVal '3' = some 3 from by decide] at h
    injection h with hv
    subst hv
    exact ⟨by decide, by decide⟩
  by_cases e5 : c = '4'
  · subst e5
    rw [show hexDigitVal '4' = some 4 from by decide] at h
    injection h with hv
    subst hv
    exact ⟨by decide, by decide⟩
  by_cases e6 : c = '5'
  · subst e6
    rw [show hexDigitVal '5' = some 5 from by decide] at h
    injection h with hv
    subst hv
    exact ⟨by decide, by decide⟩
  by_cases e7 : c = '6'
  · subst e7
    rw [show hexDigitVal '6' = some 6 from by decide] at h
    injection h with hv
    subst hv
    exact ⟨by decide, by decide⟩
  by_cases e8 : c = '7'
  · subst e8
    rw [show hexDigitVal '7' = some 7 from by decide] at h
    injection h with hv
    subst hv
    exact ⟨by decide, by decide⟩
  by_cases e9 : c = '8'
  · subst e9
    rw [show hexDigitVal '8' = some 8 from by decide] at h
    injection h with hv
    subst hv
    exact ⟨by decide, by decide⟩
  by_cases e10 : c = '9'
  · subst e10
    rw [show hexDigitVal '9' = some 9 from by decide] at h
    injection h with hv
    subst hv
    exact ⟨by decide, by decide⟩
  by_cases e11 : c = 'a'
  · subst e11
    rw [show hexDigitVal 'a' = some 10 from by decide] at h
    injection h with hv
    subst hv
    exact ⟨by decide, by decide⟩
  by_cases e12 : c = 'b'
  · subst e12
    rw [show hexDigitVal 'b' = some 11 from by decide] at h
    injection h with hv
    subst hv
    exact ⟨by decide, by decide⟩
  by_cases e13 : c = 'c'
  · subst e13
    rw [show hexDigitVal 'c' = some 12 from by decide] at h
    injection h with hv
    subst hv
    exact ⟨by decide, by decide⟩
  by_cases e14 : c = 'd'
  · subst e14
    rw [show hexDigitVal 'd' = some 13 from by decide] at h
    injection h with hv
    subst hv
    exact ⟨by decide, by decide⟩
  by_cases e15 : c = 'e'
  · subst e15
    rw [show hexDigitVal 'e' = some 14 from by decide] at h
    injection h with hv
    subst hv
    exact ⟨by decide, by decide⟩
  by_cases e16 : c = 'f'
  · subst e16
    rw [show hexDigitVal 'f' = some 15 from by decide] at h
    injection h with hv
    subst hv
    exact ⟨by decide, by decide⟩
  by_cases e17 : c = 'A'
  · subst e17
    rw [show hexDigitVal 'A' = some 10 from by decide] at h
    injection h with hv
    subst hv
    exact ⟨by decide, by decide⟩
  by_cases e18 : c = 'B'
  · subst e18
    rw [show hexDigitVal 'B' = some 11 from by decide] at h
    injection h with hv
    subst hv
    exact ⟨by decide, by decide⟩
  by_cases e19 : c = 'C'
  · subst e19
    rw [show hexDigitVal 'C' = some 12 from by decide] at h
    injection h with hv
    subst hv
    exact ⟨by decide, by decide⟩
  by_cases e20 : c = 'D'
  · subst e20
    rw [show hexDigitVal 'D' = some 13 from by decide] at h
    injection h with hv
    subst hv
    exact ⟨by decide, by decide⟩
  by_cases e21 : c = 'E'
  · subst e21
    rw [show hexDigitVal 'E' = some 14 from by decide] at h
    injection h with hv
    subst hv
    exact ⟨by decide, by decide⟩
  by_cases e22 : c = 'F'
  · subst e22
    rw [show hexDigitVal 'F' = some 15 from by decide] at h
    injection h with hv
    subst hv
    exact ⟨by decide, by decide⟩
  unfold hexDigitVal at h
  rw [if_neg e1, if_neg e2, if_neg e3, if_neg e4, if_neg e5, if_neg e6, if_neg e7, if_neg e8, if_neg e9, if_neg e10, if_neg e11, if_neg e12, if_neg e13, if_neg e14, if_neg e15, if_neg e16, if_neg e17, if_neg e18, if_neg e19, if_neg e20, if_neg e21, if_neg e22] at h
  exact Option.noConfusion h

/-- A hexadecimal digit has value at most 15. -/
theorem hexDigitVal_le {c : Char} {v : ℕ} (h : hexDigitVal c = some v) : v ≤ 15 :=
  (hexDigitVal_spec h).1

/-- Rendering the value of a lower-case hexadecimal digit gives that digit
back. -/
theorem toHexDigit_val {c : Char} {v : ℕ} (h : hexDigitVal c = some v)
    (hl : isUpperHexLetter c = false) : toHexDigit v = c :=
  (hexDigitVal_spec h).2 hl

/-- A hexadecimal digit is not the hash character. -/
theorem ne_hash_of_hexDigit {c : Char} {v : ℕ} (h : hexDigitVal c = some v) : c ≠ '#' := by
  intro e
  rw [e, show hexDigitVal '#' = none from by decide] at h
  exact Option.noConfusion h

/-- Stripping hashes removes a leading hash. -/
theorem lstripHash_cons_hash (s : List Char) : lstripHashAux ('#' :: s) = lstripHashAux s := by
  simp [lstripHashAux]

/-- Stripping hashes leaves a string not starting with a hash unchanged. -/
theorem lstrip_of_ne (c : Char) (t : List Char) (hc : c ≠ '#') :
    lstripHashAux (c :: t) = c :: t := by
  simp [lstripHashAux, hc]

/-- The parser ignores one leading hash character. -/
theorem hex_to_rgb_cons_hash (s : List Char) : hex_to_rgb ('#' :: s) = hex_to_rgb s := by
  unfold hex_to_rgb
  rw [lstripHash_cons_hash]

/-! ### Claim C5 -/

/-- C5 (amended): for a string of exactly six hexadecimal digits, optionally
prefixed with a hash, `hex_to_rgb` returns the triple of the three 2-digit
pairs, each component lies in `[0, 255]`, and reformatting the triple as a
six-digit hexadecimal string returns the original string provided its
digits are lower case (the reformatting emits lower-case digits, so an
upper-case input does not round-trip verbatim). -/
theorem claim5_hex_roundtrip (c0 c1 c2 c3 c4 c5 : Char) (v0 v1 v2 v3 v4 v5 : ℕ)
    (h0 : hexDigitVal c0 = some v0) (h1 : hexDigitVal c1 = some v1)
    (h2 : hexDigitVal c2 = some v2) (h3 : hexDigitVal c3 = some v3)
    (h4 : hexDigitVal c4 = some v4) (h5 : hexDigitVal c5 = some v5) :
    hex_to_rgb [c0, c1, c2, c3, c4, c5] = some (16 * v0 + v1, 16 * v2 + v3, 16 * v4 + v5) ∧
    hex_to_rgb ('#' :: [c0, c1, c2, c3, c4, c5]) = hex_to_rgb [c0, c1, c2, c3, c4, c5] ∧
    16 * v0 + v1 ≤ 255 ∧ 16 * v2 + v3 ≤ 255 ∧ 16 * v4 + v5 ≤ 255 ∧
    (isUpperHexLetter c0 = false → isUpperHexLetter c1 = false →
     isUpperHexLetter c2 = false → isUpperHexLetter c3 = false →
     isUpperHexLetter c4 = false → isUpperHexLetter c5 = false →
      rgbToHex (16 * v0 + v1) (16 * v2 + v3) (16 * v4 + v5) = [c0, c1, c2, c3, c4, c5]) := by
  have b0 := hexDigitVal_le h0
  have b1 := hexDigitVal_le h1
  have b2 := hexDigitVal_le h2
  have b3 := hexDigitVal_le h3
  have b4 := hexDigitVal_le h4
  have b5 := hexDigitVal_le h5
  have p01 : pyIntHex [c0, c1] = some (16 * v0 + v1) := by
    simp [pyIntHex, pyIntHexAux, h0, h1]
  have p23 : pyIntHex [c2, c3] = some (16 * v2 + v3) := by
    simp [pyIntHex, pyIntHexAux, h2, h3]
  have p45 : pyIntHex [c4, c5] = some (16 * v4 + v5) := by
    simp [pyIntHex, pyIntHexAux, h4, h5]
  have hmain : hex_to_rgb [c0, c1, c2, c3, c4, c5] =
      some (16 * v0 + v1, 16 * v2 + v3, 16 * v4 + v5) := by
    unfold hex_to_rgb
    rw [lstrip_of_ne c0 _ (ne_hash_of_hexDigit h0)]
    rw [show ((([c0, c1, c2, c3, c4, c5] : List Char).drop 0).take 2) = [c0, c1] from rfl,
        show ((([c0, c1, c2, c3, c4, c5] : List Char).drop 2).take 2) = [c2, c3] from rfl,
        show ((([c0, c1, c2, c3, c4, c5] : List Char).drop 4).take 2) = [c4, c5] from rfl,
        p01, p23, p45]
  refine ⟨hmain, hex_to_rgb_cons_hash _, by omega, by omega, by omega, ?_⟩
  intro u0 u1 u2 u3 u4 u5
  unfold rgbToHex toHexPair
  rw [show (16 * v0 + v1) / 16 = v0 from by omega, show (16 * v0 + v1) % 16 = v1 from by omega,
      show (16 * v2 + v3) / 16 = v2 from by omega, show (16 * v2 + v3) % 16 = v3 from by omega,
      show (16 * v4 + v5) / 16 = v4 from by omega, show (16 * v4 + v5) % 16 = v5 from by omega,
      toHexDigit_val h0 u0, toHexDigit_val h1 u1, toHexDigit_val h2 u2, toHexDigit_val h3 u3,
      toHexDigit_val h4 u4, toHexDigit_val h5 u5]
  rfl

/-- C5 witness: on the repository's primary colour string
`"00d4aa"` the parser returns `(0, 212, 170)` and the reformatting
round-trips. -/
theorem claim5_witness :
    hex_to_rgb ['0', '0', 'd', '4', 'a', 'a'] =
      some (16 * 0 + 0, 16 * 13 + 4, 16 * 10 + 10) ∧
    rgbToHex (16 * 0 + 0) (16 * 13 + 4) (16 * 10 + 10) = ['0', '0', 'd', '4', 'a', 'a'] :=
  ⟨(claim5_hex_roundtrip '0' '0' 'd' '4' 'a' 'a' 0 0 13 4 10 10 (by decide) (by decide)
      (by decide) (by decide) (by decide) (by decide)).1,
   (claim5_hex_roundtrip '0' '0' 'd' '4' 'a' 'a' 0 0 13 4 10 10 (by decide) (by decide)
      (by decide) (by decide) (by decide) (by decide)).2.2.2.2.2 (by decide) (by decide)
      (by decide) (by decide) (by decide) (by decide)⟩

/-- C5 counterexample: the upper-case six-digit string `"FF0000"` parses to
`(255, 0, 0)`, but reformatting that triple yields the lower-case string
`"ff0000"`, which is not the original string — the round-trip in the claim
fails for upper-case digits. -/
theorem claim5_counterexample :
    hex_to_rgb ['F', 'F', '0', '0', '0', '0'] = some (255, 0, 0) ∧
    rgbToHex 255 0 0 = ['f', 'f', '0', '0', '0', '0'] ∧
    (['f', 'f', '0', '0', '0', '0'] : List Char) ≠ ['F', 'F', '0', '0', '0', '0'] := by
  exact ⟨by decide, by decide, by decide⟩

/-! ### Claim C10 -/

/-- C10 (amended): `hex_to_rgb` strips every leading hash character, so a
hash-prefixed string parses as its suffix does; the function performs no
validation, and a non-conforming input can still produce a well-formed
triple — the seven-digit string `"1234567"` returns `(18, 52, 86)`,
silently ignoring the trailing digit. -/
theorem claim10_hash_strip :
    (∀ s : List Char, hex_to_rgb ('#' :: s) = hex_to_rgb s) ∧
    hex_to_rgb ['1', '2', '3', '4', '5', '6', '7'] = some (18, 52, 86) :=
  ⟨hex_to_rgb_cons_hash, by decide⟩

/-- C10 counterexample: the claim says a string whose remainder is not six
hexadecimal digits makes the function raise or return a malformed tuple;
but on `"1234567"` — whose remainder has length 7, not 6 — the function
neither raises nor returns a malformed tuple: it returns `(18, 52, 86)`,
a well-formed triple with every component in `[0, 255]`. -/
theorem claim10_counterexample :
    (lstripHashAux ['1', '2', '3', '4', '5', '6', '7']).length ≠ 6 ∧
    hex_to_rgb ['1', '2', '3', '4', '5', '6', '7'] = some (18, 52, 86) ∧
    18 ≤ 255 ∧ 52 ≤ 255 ∧ 86 ≤ 255 := by
  exact ⟨by decide, by decide, by decide, by decide, by decide⟩

/-! ### Claim C7 -/

/-- C7 (confirmed): in both scripts the layout cursor advances only by
strictly positive amounts — every successive value in the cursor trace is
strictly greater than the one before it, on both header branches of the
yield script and on the single increment sequence of the features
script. -/
theorem claim7_cursor_monotone :
    (∀ logoOk : Bool, List.Chain' (· < ·) (CreateInfographic.cursorTrace logoOk)) ∧
    List.Chain' (· < ·) CreateFeaturesInfographic.cursorTrace := by
  refine ⟨fun logoOk => ?_, ?_⟩
  · cases logoOk <;>
      norm_num [CreateInfographic.cursorTrace, CreateInfographic.increments,
        CreateInfographic.bodyIncrements, List.scanl, List.chain'_cons, List.chain'_singleton]
  · norm_num [CreateFeaturesInfographic.cursorTrace, CreateFeaturesInfographic.increments,
      List.scanl, List.chain'_cons, List.chain'_singleton]

/-! ### Claim C3 -/

/-- C3 (amended): the features script crops at export — the saved height is
the content height `final cursor + 10` whenever that is below the allocated
3200, and the allocated height otherwise (never padded); the yield script
never crops — it always saves the canvas at its allocated 1200 x 1600,
even though its final cursor is below 1600. -/
theorem claim3_export_crop :
    (∀ fontsOk globeOk : Bool, ∃ res : RunResult,
      CreateFeaturesInfographic.create_infographic fontsOk globeOk = Except.ok res ∧
      res.savedWidth = CreateFeaturesInfographic.WIDTH ∧
      res.savedHeight = (if res.finalCursor + 10 < CreateFeaturesInfographic.HEIGHT
        then res.finalCursor + 10 else CreateFeaturesInfographic.HEIGHT)) ∧
    (∀ fontsOk logoOk : Bool, ∃ res : RunResult,
      CreateInfographic.create_infographic fontsOk logoOk = Except.ok res ∧
      res.savedWidth = CreateInfographic.WIDTH ∧
      res.savedHeight = CreateInfographic.HEIGHT) := by
  constructor <;> intro a b <;> cases a <;> cases b <;> exact ⟨_, rfl, by decide, by decide⟩

/-- C3 counterexample: in the successful run of `create_infographic.py` the
final layout cursor is 1450, strictly below the allocated height 1600, yet
the canvas is saved at height 1600 — not cropped to the final cursor
height as the claim requires of every run. -/
theorem claim3_counterexample :
    CreateInfographic.create_infographic true true =
      Except.ok ⟨FontChoice.truetype, HeaderKind.imageLogo, 1450, 1200, 1600⟩ ∧
    (1450 : ℤ) < 1600 ∧ (1600 : ℤ) ≠ 1450 :=
  ⟨rfl, by decide, by decide⟩

/-! ### Claim C9 -/

/-- C9 (confirmed): in both scripts, every combination of font-load and
logo/globe-load failures still yields a completed run (an `Except.ok`
result, the exceptions are caught locally and never propagate); when the
font load fails all text uses the default font, and when the asset-image
load fails a text-only header is drawn instead. -/
theorem claim9_error_fallbacks :
    (∀ fontsOk logoOk : Bool, ∃ res : RunResult,
      CreateInfographic.create_infographic fontsOk logoOk = Except.ok res ∧
      (fontsOk = false → res.fonts = FontChoice.defaultFont) ∧
      (logoOk = false → res.header = HeaderKind.textOnly)) ∧
    (∀ fontsOk globeOk : Bool, ∃ res : RunResult,
      CreateFeaturesInfographic.create_infographic fontsOk globeOk = Except.ok res ∧
      (fontsOk = false → res.fonts = FontChoice.defaultFont) ∧
      (globeOk = false → res.header = HeaderKind.textOnly)) := by
  constructor <;> intro a b <;> cases a <;> cases b <;>
    exact ⟨_, rfl, fun hf => by first | rfl | exact Bool.noConfusion hf,
      fun hl => by first | rfl | exact Bool.noConfusion hl⟩

/-- C9 witness: with both loads failing, the yield script still completes,
using the default font and the text-only header. -/
theorem claim9_witness :
    ∃ res : RunResult,
      CreateInfographic.create_infographic false false = Except.ok res ∧
      res.fonts = FontChoice.defaultFont ∧ res.header = HeaderKind.textOnly := by
  obtain ⟨res, h1, h2, h3⟩ := claim9_error_fallbacks.1 false false
  exact ⟨res, h1, h2 rfl, h3 rfl⟩

/-! ### Claim C8 -/

/-- C8 (confirmed): when `draw_gradient_rect` is called with a positive
radius, every destination pixel outside the rounded-rectangle region of the
box (the region painted by this file's `draw_rounded_rect` over the overlay
box, shifted to the box origin) keeps exactly the colour it had before the
call: the overlay alpha is 0 there, so the paste leaves the destination
unaffected. -/
theorem claim8_frame_effect (img : ℤ × ℤ → Rgb) (coords : Box) (ct cb : Rgb) (radius : ℤ)
    (p : ℤ × ℤ) (hrad : 0 < radius)
    (hout : ¬ (CreateFeaturesInfographic.draw_rounded_rect
        ⟨0, 0, coords.x2 - coords.x1, coords.y2 - coords.y1⟩ radius).pixels
        (p.1 - coords.x1, p.2 - coords.y1)) :
    CreateFeaturesInfographic.draw_gradient_rect img coords ct cb radius p = img p := by
  unfold CreateFeaturesInfographic.draw_gradient_rect
  have hc : ¬ (0 ≤ p.1 - coords.x1 ∧ p.1 - coords.x1 < coords.x2 - coords.x1 ∧
      0 ≤ p.2 - coords.y1 ∧ p.2 - coords.y1 < coords.y2 - coords.y1 ∧
      CreateFeaturesInfographic.overlayAlpha (coords.x2 - coords.x1) (coords.y2 - coords.y1)
        radius (p.1 - coords.x1, p.2 - coords.y1) = 255) := by
    rintro ⟨-, -, -, -, ha⟩
    unfold CreateFeaturesInfographic.overlayAlpha at ha
    rw [if_pos hrad, if_neg hout] at ha
    exact absurd ha (by decide)
  rw [if_neg hc]

/-- C8 witness: a pixel far outside a small gradient box keeps its previous
colour. -/
theorem claim8_witness :
    CreateFeaturesInfographic.draw_gradient_rect (fun _ => ⟨9, 9, 9⟩) ⟨0, 0, 4, 4⟩
      ⟨0, 0, 0⟩ ⟨255, 255, 255⟩ 1 (100, 100) = (fun _ => (⟨9, 9, 9⟩ : Rgb)) (100, 100) :=
  claim8_frame_effect (fun _ => ⟨9, 9, 9⟩) ⟨0, 0, 4, 4⟩ ⟨0, 0, 0⟩ ⟨255, 255, 255⟩ 1
    (100, 100) (by decide) (by decide)
